import Mathlib

/-!
Verification of the drone-flight simulation core of WayPointMapper-UI.

The embedding below follows src/map_app.ts (simulation-mode methods,
lines 1288-1777) and src/schema.ts (SIMULATION_CONFIG). JavaScript numbers
are modelled as real numbers; where the source's IEEE arithmetic would
produce a non-finite value that gets stored in component state, the
modelled step returns `none` (see the doc comments on `updateDronePosition`).
Rendering-only effects (markers, polylines, weather overlays, requestUpdate)
carry no simulation state and are omitted; the two repeating drivers
(requestAnimationFrame loop and the 50 ms telemetry interval) are modelled
by the flags `animationLoopRunning` / `telemetryRunning` together with the
tick functions `frameTick` and `telemetryTick`.
-/

noncomputable section

/-- A latitude/longitude record, as the `{lat, lng}` object literals the
source passes to `calculateDistance` and `calculateHeading`. -/
structure LatLng where
  lat : ℝ
  lng : ℝ

/-- The fields of a waypoint the simulation reads (schema.ts `Waypoint`;
id/color/isHome play no role in the simulation methods). The waypoint list
handed to the simulation models `Array.from(this.waypoints.values())`
sorted by numeric id, in that order. -/
structure Waypoint where
  lat : ℝ
  lng : ℝ
  altitude : ℝ
  speed : ℝ

instance : Inhabited Waypoint := ⟨⟨0, 0, 0, 0⟩⟩

/-- The `{lat, lng}` view of a waypoint (structural typing in the source). -/
def Waypoint.pos (w : Waypoint) : LatLng := ⟨w.lat, w.lng⟩

/-- schema.ts `SimulationState` (map_app.ts lines 322-334). -/
structure SimulationState where
  isActive : Bool
  isPaused : Bool
  currentWaypointIndex : ℕ
  progress : ℝ
  speedMultiplier : ℝ
  startTime : ℝ
  elapsedTime : ℝ
  totalDistance : ℝ
  distanceTraveled : ℝ
  estimatedTimeRemaining : ℝ
  stepMode : Bool

/-- schema.ts `DroneTelemetry` (map_app.ts lines 335-347). -/
structure DroneTelemetry where
  latitude : ℝ
  longitude : ℝ
  altitude : ℝ
  speed : ℝ
  heading : ℝ
  battery : ℝ
  windSpeed : ℝ
  windDirection : ℝ
  groundSpeed : ℝ
  timeToWaypoint : ℝ
  distanceToWaypoint : ℝ

/-- One entry of the drone trail (schema.ts `DronePosition`). -/
structure DronePosition where
  lat : ℝ
  lng : ℝ
  altitude : ℝ
  heading : ℝ
  timestamp : ℝ

/-- schema.ts `SimulationTrail` (map_app.ts lines 348-351). -/
structure SimulationTrail where
  positions : List DronePosition
  maxLength : ℕ

/-- The 2D wind vector of `WeatherEffect`. -/
structure WindVector where
  x : ℝ
  y : ℝ

/-- schema.ts `WeatherEffect` (map_app.ts lines 367-372). -/
structure WeatherEffect where
  windVector : WindVector
  visibility : ℝ
  precipitation : Bool
  turbulence : ℝ

/-- The `wind` member of the mission weather data. -/
structure WindData where
  deg : ℝ
  speed : ℝ

/-- The fields of `missionWeather` read by `updateWeatherEffects`. -/
structure MissionWeather where
  wind : Option WindData
  visibility : Option ℝ
  description : String

/-- The component state touched by the simulation methods. The two Boolean
flags model whether `simulationAnimationId` / `telemetryUpdateInterval`
hold a scheduled driver (i.e. are not `undefined`). -/
structure AppState where
  simulationState : SimulationState
  droneTelemetry : DroneTelemetry
  droneTrail : SimulationTrail
  weatherEffect : WeatherEffect
  missionWeather : Option MissionWeather
  showTopBar : Bool
  animationLoopRunning : Bool
  telemetryRunning : Bool

/-- schema.ts `SIMULATION_CONFIG.BATTERY_DRAIN_RATE` ("per second at 1x speed"). -/
def BATTERY_DRAIN_RATE : ℝ := 0.001

/-- schema.ts `SIMULATION_CONFIG.TELEMETRY_UPDATE_RATE` in milliseconds (20 Hz). -/
def TELEMETRY_UPDATE_RATE : ℝ := 50

/-- JavaScript `Math.atan2(y, x)` on finite inputs. -/
def atan2 (y x : ℝ) : ℝ :=
  if 0 < x then Real.arctan (y / x)
  else if x < 0 then
    (if 0 ≤ y then Real.arctan (y / x) + Real.pi else Real.arctan (y / x) - Real.pi)
  else if 0 < y then Real.pi / 2
  else if y < 0 then -(Real.pi / 2)
  else 0

/-- map_app.ts `calculateDistance` (lines 1439-1448): haversine distance in
meters between two points, Earth radius 6,371,000 m. -/
def calculateDistance (point1 point2 : LatLng) : ℝ :=
  let R : ℝ := 6371000
  let dLat := (point2.lat - point1.lat) * Real.pi / 180
  let dLng := (point2.lng - point1.lng) * Real.pi / 180
  let a := Real.sin (dLat / 2) * Real.sin (dLat / 2) +
    Real.cos (point1.lat * Real.pi / 180) * Real.cos (point2.lat * Real.pi / 180) *
    (Real.sin (dLng / 2) * Real.sin (dLng / 2))
  let c := 2 * atan2 (Real.sqrt a) (Real.sqrt (1 - a))
  R * c

/-- JavaScript truncation toward zero (the integer quotient used by `%`). -/
def jsTrunc (x : ℝ) : ℤ := if 0 ≤ x then ⌊x⌋ else ⌈x⌉

/-- JavaScript `%` on finite numbers: remainder with the dividend's sign. -/
def jsFmod (x y : ℝ) : ℝ := x - y * (jsTrunc (x / y) : ℝ)

/-- map_app.ts `calculateHeading` (lines 1453-1463): forward azimuth in
degrees, normalized via `(heading + 360) % 360`. -/
def calculateHeading (fromP toP : LatLng) : ℝ :=
  let dLng := (toP.lng - fromP.lng) * Real.pi / 180
  let lat1 := fromP.lat * Real.pi / 180
  let lat2 := toP.lat * Real.pi / 180
  let y := Real.sin dLng * Real.cos lat2
  let x := Real.cos lat1 * Real.sin lat2 - Real.sin lat1 * Real.cos lat2 * Real.cos dLng
  let heading := atan2 y x * 180 / Real.pi
  jsFmod (heading + 360) 360

/-- map_app.ts `calculateWindEffect` (lines 1570-1578). -/
def calculateWindEffect (we : WeatherEffect) : LatLng :=
  let windSpeed := we.windVector.x + we.windVector.y
  let windFactor := windSpeed * 0.0001
  ⟨we.windVector.y * windFactor, we.windVector.x * windFactor⟩

/-- map_app.ts `calculateGroundSpeed` (lines 1583-1590). -/
def calculateGroundSpeed (we : WeatherEffect) (airSpeed : ℝ) : ℝ :=
  let windSpeed := Real.sqrt (we.windVector.x ^ 2 + we.windVector.y ^ 2)
  max 0 (airSpeed - windSpeed * 0.1)

/-- map_app.ts `calculateTotalDistance` (lines 1424-1434): sum of haversine
distances over consecutive waypoint pairs. -/
def calculateTotalDistance (waypoints : List Waypoint) : ℝ :=
  (waypoints.zip waypoints.tail).foldl
    (fun acc p => acc + calculateDistance p.1.pos p.2.pos) 0

/-- JavaScript `String.prototype.includes` on the underlying characters. -/
def jsStringIncludes (s searchString : String) : Bool :=
  decide (searchString.toList <:+: s.toList)

/-- map_app.ts `updateWeatherEffects` (lines 1595-1618). -/
def updateWeatherEffects (app : AppState) : AppState :=
  match app.missionWeather with
  | none => app
  | some mw =>
    match mw.wind with
    | none => app
    | some wind =>
      let windDir := wind.deg * Real.pi / 180
      let windSpeed := wind.speed
      let we : WeatherEffect :=
        { windVector := ⟨Real.cos windDir * windSpeed, Real.sin windDir * windSpeed⟩
          visibility :=
            match mw.visibility with
            | none => 10000
            | some v => if v = 0 then 10000 else v
          precipitation :=
            jsStringIncludes mw.description "rain" || jsStringIncludes mw.description "snow"
          turbulence := if windSpeed > 10 then 0.3 else if windSpeed > 5 then 0.1 else 0 }
      { app with
        weatherEffect := we
        droneTelemetry :=
          { app.droneTelemetry with windSpeed := windSpeed, windDirection := wind.deg } }

/-- map_app.ts `initializeDronePosition` (lines 1400-1419); the marker
creation is rendering only. -/
def initializeDronePosition (waypoints : List Waypoint) (app : AppState) : AppState :=
  match waypoints with
  | [] => app
  | w :: rest =>
    { app with
      droneTelemetry :=
        { app.droneTelemetry with
          latitude := w.lat
          longitude := w.lng
          altitude := w.altitude
          speed := w.speed
          heading := match rest with | [] => 0 | w2 :: _ => calculateHeading w.pos w2.pos
          battery := 100 } }

/-- map_app.ts `startAnimationLoop` (lines 1468-1482): schedules the
per-frame driver unless inactive or paused. -/
def startAnimationLoop (app : AppState) : AppState :=
  if !app.simulationState.isActive || app.simulationState.isPaused then app
  else { app with animationLoopRunning := true }

/-- map_app.ts `stopAnimationLoop` (lines 1487-1492). -/
def stopAnimationLoop (app : AppState) : AppState :=
  { app with animationLoopRunning := false }

/-- map_app.ts `startTelemetryUpdates` (lines 1744-1767): clears any prior
interval and schedules the 50 ms telemetry driver (unconditionally; the
guard lives inside the interval callback, see `telemetryTick`). -/
def startTelemetryUpdates (app : AppState) : AppState :=
  { app with telemetryRunning := true }

/-- map_app.ts `stopTelemetryUpdates` (lines 1772-1777). -/
def stopTelemetryUpdates (app : AppState) : AppState :=
  { app with telemetryRunning := false }

/-- map_app.ts `stopSimulation` (lines 1352-1369); marker/polyline/overlay
removal is rendering only. -/
def stopSimulation (app : AppState) : AppState :=
  let app1 :=
    { app with
      simulationState :=
        { app.simulationState with
          isActive := false
          isPaused := false
          progress := 0
          elapsedTime := 0
          distanceTraveled := 0 }
      showTopBar := false }
  let app2 := stopTelemetryUpdates (stopAnimationLoop app1)
  { app2 with droneTrail := { app2.droneTrail with positions := [] } }

/-- map_app.ts `toggleSimulationPause` (lines 1334-1347). -/
def toggleSimulationPause (app : AppState) : AppState :=
  let app1 :=
    { app with
      simulationState :=
        { app.simulationState with isPaused := !app.simulationState.isPaused } }
  if !app1.simulationState.isPaused then
    startTelemetryUpdates (startAnimationLoop app1)
  else
    stopTelemetryUpdates (stopAnimationLoop app1)

/-- map_app.ts `resetSimulation` (lines 1374-1385). -/
def resetSimulation (waypoints : List Waypoint) (app : AppState) : AppState :=
  let app1 :=
    { app with
      simulationState :=
        { app.simulationState with
          currentWaypointIndex := 0
          progress := 0
          elapsedTime := 0
          distanceTraveled := 0 }
      droneTrail := { app.droneTrail with positions := [] } }
  initializeDronePosition waypoints app1

/-- map_app.ts `setSimulationSpeed` (lines 1390-1395):
`Math.max(0.1, Math.min(10, multiplier))`. -/
def setSimulationSpeed (app : AppState) (multiplier : ℝ) : AppState :=
  { app with
    simulationState :=
      { app.simulationState with speedMultiplier := max 0.1 (min 10 multiplier) } }

/-- The list-level body of map_app.ts `addToTrail` (lines 1701-1706):
push, then shift once when the length exceeds `maxLength`. -/
def addToTrailList (positions : List DronePosition) (maxLength : ℕ)
    (position : DronePosition) : List DronePosition :=
  let pushed := positions ++ [position]
  if maxLength < pushed.length then pushed.tail else pushed

/-- map_app.ts `addToTrail` (lines 1692-1707); `now` models `Date.now()`. -/
def addToTrail (now : ℝ) (app : AppState) : AppState :=
  let position : DronePosition :=
    ⟨app.droneTelemetry.latitude, app.droneTelemetry.longitude,
      app.droneTelemetry.altitude, app.droneTelemetry.heading, now⟩
  { app with
    droneTrail :=
      { app.droneTrail with
        positions := addToTrailList app.droneTrail.positions app.droneTrail.maxLength position } }

/-- One firing of the 50 ms telemetry interval callback (map_app.ts lines
1748-1766). The local `batteryDrainRate = 0.001` is applied per tick, and
`this.droneTelemetry.groundSpeed || 1` substitutes 1 for a zero ground
speed. -/
def telemetryTick (app : AppState) : AppState :=
  if !app.simulationState.isActive || app.simulationState.isPaused then app
  else
    let batteryDrainRate : ℝ := 0.001
    let currentDrain := batteryDrainRate * app.simulationState.speedMultiplier
    let tel : DroneTelemetry :=
      { app.droneTelemetry with
        battery := max 0 (app.droneTelemetry.battery - currentDrain) }
    let remainingDistance :=
      app.simulationState.totalDistance - app.simulationState.distanceTraveled
    let avgSpeed := if tel.groundSpeed = 0 then 1 else tel.groundSpeed
    { app with
      droneTelemetry := tel
      simulationState :=
        { app.simulationState with
          estimatedTimeRemaining := remainingDistance / avgSpeed } }

/-- The waypoint-reached branch of `updateDronePosition` (map_app.ts lines
1527-1535): increment the index, reset progress, auto-pause in step mode. -/
def reachWaypoint (app : AppState) : AppState :=
  let app1 :=
    { app with
      simulationState :=
        { app.simulationState with
          currentWaypointIndex := app.simulationState.currentWaypointIndex + 1
          progress := 0 } }
  if app1.simulationState.stepMode then toggleSimulationPause app1 else app1

/-- map_app.ts `updateDronePosition` (lines 1497-1565). The returned Boolean
records whether the mission-complete alert fired on this call.

IEEE notes: with `segmentDistance = 0` the source computes `progressStep =
distanceStep / 0`, which is `+Infinity` when `distanceStep > 0` — then
`progress >= 1` holds and the waypoint-reached branch runs, leaving a finite
state — and `NaN` or `-Infinity` otherwise, in which case a non-finite
`progress` is stored; that corrupt outcome is modelled as `none`. Likewise,
with `actualSpeed = 0` on the interpolation branch the stored
`timeToWaypoint` would be non-finite, modelled as `none`. -/
def updateDronePosition (waypoints : List Waypoint) (now : ℝ) (app : AppState) :
    Option (AppState × Bool) :=
  if waypoints.length < 2 then some (app, false)
  else if waypoints.length - 1 ≤ app.simulationState.currentWaypointIndex then
    some (stopSimulation app, true)
  else
    let currentWaypoint := waypoints.getD app.simulationState.currentWaypointIndex default
    let nextWaypoint := waypoints.getD (app.simulationState.currentWaypointIndex + 1) default
    let deltaTime : ℝ := 16.67 / 1000
    let actualSpeed := nextWaypoint.speed * app.simulationState.speedMultiplier
    let distanceStep := actualSpeed * deltaTime
    let segmentDistance := calculateDistance currentWaypoint.pos nextWaypoint.pos
    if segmentDistance = 0 then
      if 0 < distanceStep then some (reachWaypoint app, false) else none
    else
      let newProgress := app.simulationState.progress + distanceStep / segmentDistance
      if 1 ≤ newProgress then some (reachWaypoint app, false)
      else if actualSpeed = 0 then none
      else
        let newLat := currentWaypoint.lat + (nextWaypoint.lat - currentWaypoint.lat) * newProgress
        let newLng := currentWaypoint.lng + (nextWaypoint.lng - currentWaypoint.lng) * newProgress
        let newAlt :=
          currentWaypoint.altitude + (nextWaypoint.altitude - currentWaypoint.altitude) * newProgress
        let windOffset := calculateWindEffect app.weatherEffect
        let tel :=
          { app.droneTelemetry with
            latitude := newLat + windOffset.lat
            longitude := newLng + windOffset.lng
            altitude := newAlt
            speed := actualSpeed
            heading := calculateHeading ⟨newLat, newLng⟩ nextWaypoint.pos
            groundSpeed := calculateGroundSpeed app.weatherEffect actualSpeed
            distanceToWaypoint := segmentDistance * (1 - newProgress)
            timeToWaypoint := segmentDistance * (1 - newProgress) / actualSpeed }
        let sim :=
          { app.simulationState with
            progress := newProgress
            elapsedTime := (now - app.simulationState.startTime) / 1000
            distanceTraveled := app.simulationState.distanceTraveled + distanceStep }
        some (addToTrail now { app with simulationState := sim, droneTelemetry := tel }, false)

/-- One firing of the per-frame `animate` callback (map_app.ts lines
1471-1479): a no-op when inactive or paused, otherwise `updateDronePosition`
(marker and polyline updates are rendering only). -/
def frameTick (waypoints : List Waypoint) (now : ℝ) (app : AppState) :
    Option (AppState × Bool) :=
  if !app.simulationState.isActive || app.simulationState.isPaused then some (app, false)
  else updateDronePosition waypoints now app

/-- `n` consecutive per-frame ticks; the second component counts how many of
them fired the mission-complete alert. -/
def frameTicks (waypoints : List Waypoint) (now : ℝ) : ℕ → AppState → Option (AppState × ℕ)
  | 0, app => some (app, 0)
  | n + 1, app =>
    (frameTick waypoints now app).bind fun p =>
      (frameTicks waypoints now n p.1).map fun q => (q.1, (if p.2 then 1 else 0) + q.2)

/-- How a call to `startSimulation` returns to its caller. The source method
(map_app.ts lines 1295-1329) either starts the run or shows a browser
`alert(...)` and returns; `typedFailure` is modelled from the spec ("fails
with `InsufficientWaypointsError`") for comparison with the source — the
source never constructs it, and no such error type exists in the repository. -/
inductive StartOutcome where
  | started
  | alertShown (msg : String)
  | typedFailure (errorName : String)

/-- map_app.ts `startSimulation` (lines 1295-1329); `now` models
`Date.now()`. Weather-overlay creation is rendering only. -/
def startSimulation (waypoints : List Waypoint) (now : ℝ) (app : AppState) :
    AppState × StartOutcome :=
  if waypoints.length < 2 then
    (app, StartOutcome.alertShown "Please add at least 2 waypoints to start simulation")
  else
    let app1 :=
      { app with
        simulationState :=
          { app.simulationState with
            isActive := true
            isPaused := false
            currentWaypointIndex := 0
            progress := 0
            startTime := now
            elapsedTime := 0
            totalDistance := calculateTotalDistance waypoints
            distanceTraveled := 0
            stepMode := false }
        droneTrail := { app.droneTrail with positions := [] }
        showTopBar := true }
    let app2 := initializeDronePosition waypoints app1
    let app3 := updateWeatherEffects app2
    (startTelemetryUpdates (startAnimationLoop app3), StartOutcome.started)

/-- The component's initial `simulationState` (map_app.ts lines 322-334). -/
def initialSimulationState : SimulationState where
  isActive := false
  isPaused := false
  currentWaypointIndex := 0
  progress := 0
  speedMultiplier := 1.0
  startTime := 0
  elapsedTime := 0
  totalDistance := 0
  distanceTraveled := 0
  estimatedTimeRemaining := 0
  stepMode := false

/-- The component's initial `droneTelemetry` (map_app.ts lines 335-347). -/
def initialDroneTelemetry : DroneTelemetry where
  latitude := 0
  longitude := 0
  altitude := 0
  speed := 0
  heading := 0
  battery := 100
  windSpeed := 0
  windDirection := 0
  groundSpeed := 0
  timeToWaypoint := 0
  distanceToWaypoint := 0

/-- The component's initial `weatherEffect` (map_app.ts lines 367-372;
`WEATHER_THRESHOLDS.VISIBILITY_MIN = 1000`). -/
def initialWeatherEffect : WeatherEffect where
  windVector := ⟨0, 0⟩
  visibility := 1000
  precipitation := false
  turbulence := 0

/-- The component's initial simulation-related state. -/
def initialAppState : AppState where
  simulationState := initialSimulationState
  droneTelemetry := initialDroneTelemetry
  droneTrail := { positions := [], maxLength := 100 }
  weatherEffect := initialWeatherEffect
  missionWeather := none
  showTopBar := false
  animationLoopRunning := false
  telemetryRunning := false

/-- A waypoint at the origin, cruise speed 10 m/s. -/
def wpA : Waypoint := ⟨0, 0, 0, 10⟩

/-- A waypoint at latitude 90°, same longitude, altitude 50 m, speed 10 m/s. -/
def wpB : Waypoint := ⟨90, 0, 50, 10⟩

/-- A running (active, unpaused) state, otherwise at the initial values. -/
def sampleActiveApp : AppState :=
  { initialAppState with
    simulationState := { initialSimulationState with isActive := true }
    animationLoopRunning := true
    telemetryRunning := true }

/-- A running state with a 10 m/s easterly wind vector stored in
`weatherEffect` (as `updateWeatherEffects` would produce for wind from 0°). -/
def c2App : AppState :=
  { sampleActiveApp with
    weatherEffect := { initialWeatherEffect with windVector := ⟨10, 0⟩ } }

/-- A running state halfway along its current segment. -/
def c8App : AppState :=
  { sampleActiveApp with
    simulationState := { sampleActiveApp.simulationState with progress := 0.5 } }

/-- A running state whose waypoint index already points at the last waypoint
of a two-waypoint path. -/
def c4App : AppState :=
  { sampleActiveApp with
    simulationState := { sampleActiveApp.simulationState with currentWaypointIndex := 1 } }

/-! ## Frame lemmas for the start pipeline -/

/-- `initializeDronePosition` only writes telemetry. -/
theorem initializeDronePosition_simulationState (waypoints : List Waypoint) (app : AppState) :
    (initializeDronePosition waypoints app).simulationState = app.simulationState := by
  unfold initializeDronePosition
  cases waypoints <;> rfl

/-- `updateWeatherEffects` only writes `weatherEffect` and telemetry. -/
theorem updateWeatherEffects_simulationState (app : AppState) :
    (updateWeatherEffects app).simulationState = app.simulationState := by
  unfold updateWeatherEffects
  cases app.missionWeather with
  | none => rfl
  | some mw =>
    cases hw : mw.wind with
    | none => simp [hw]
    | some wind => simp [hw]

/-- Scheduling the two drivers does not change the simulation state. -/
theorem startDrivers_simulationState (app : AppState) :
    (startTelemetryUpdates (startAnimationLoop app)).simulationState = app.simulationState := by
  unfold startTelemetryUpdates startAnimationLoop
  split <;> rfl

/-! ## Per-frame ticks on an idle state -/

/-- A per-frame tick on an inactive state is a pure no-op and fires nothing. -/
theorem frameTick_inactive (waypoints : List Waypoint) (now : ℝ) (app : AppState)
    (h : app.simulationState.isActive = false) :
    frameTick waypoints now app = some (app, false) := by
  unfold frameTick
  rw [h]
  simp

/-- Any number of per-frame ticks on an inactive state is a no-op with zero
mission-complete alerts. -/
theorem frameTicks_inactive (waypoints : List Waypoint) (now : ℝ) (app : AppState)
    (h : app.simulationState.isActive = false) :
    ∀ k, frameTicks waypoints now k app = some (app, 0) := by
  intro k
  induction k with
  | zero => rfl
  | succ n ih =>
    simp [frameTicks, frameTick_inactive waypoints now app h, ih]

/-! ## Trail buffer -/

/-- Folding appends through `addToTrailList` keeps exactly the most recent
`maxLength` entries of everything appended so far. -/
theorem foldl_addToTrailList (maxLength : ℕ) (ps : List DronePosition) :
    ∀ acc : List DronePosition, acc.length ≤ maxLength →
      ps.foldl (fun t p => addToTrailList t maxLength p) acc =
        (acc ++ ps).drop ((acc ++ ps).length - maxLength) := by
  induction ps with
  | nil =>
    intro acc h
    simp [Nat.sub_eq_zero_of_le h]
  | cons p ps ih =>
    intro acc h
    rw [List.foldl_cons]
    by_cases hlt : acc.length < maxLength
    · have hstep : addToTrailList acc maxLength p = acc ++ [p] := by
        unfold addToTrailList
        rw [if_neg (by simp; omega)]
      rw [hstep, ih (acc ++ [p]) (by simp; omega)]
      simp
    · have heq : acc.length = maxLength := by omega
      cases acc with
      | nil =>
        have h0 : maxLength = 0 := by simpa using heq.symm
        subst h0
        have hstep : addToTrailList [] 0 p = [] := by
          unfold addToTrailList
          simp
        rw [hstep, ih [] (by simp)]
        simp
      | cons a as =>
        simp only [List.length_cons] at heq
        have hstep : addToTrailList (a :: as) maxLength p = as ++ [p] := by
          unfold addToTrailList
          rw [if_pos (by simp; omega)]
          simp
        rw [hstep, ih (as ++ [p]) (by simp; omega)]
        have hlen1 : (as ++ [p] ++ ps).length - maxLength = ps.length := by
          simp
          omega
        have hlen2 : ((a :: as) ++ p :: ps).length - maxLength = ps.length + 1 := by
          simp
          omega
        rw [hlen1, hlen2]
        simp [List.append_assoc]

/-- C5: after any sequence of trail appends starting from an empty buffer,
the buffer holds exactly the most recent `min(totalAppended, maxLength)`
appended positions in chronological order (oldest evicted first), so its
length never exceeds `maxLength`. -/
theorem C5_trail_fifo_bound (ps : List DronePosition) (maxLength : ℕ) :
    ps.foldl (fun t p => addToTrailList t maxLength p) [] =
        ps.drop (ps.length - maxLength) ∧
      (ps.foldl (fun t p => addToTrailList t maxLength p) []).length =
        min ps.length maxLength ∧
      (ps.foldl (fun t p => addToTrailList t maxLength p) []).length ≤ maxLength := by
  have h := foldl_addToTrailList maxLength ps [] (by simp)
  simp only [List.nil_append] at h
  refine ⟨h, ?_, ?_⟩ <;> rw [h, List.length_drop] <;> omega

/-! ## Stop, speed, start -/

/-- C7: from any non-idle state, `stopSimulation` clears the run (active
flag, progress, elapsed time, distance traveled, trail, both drivers) while
leaving the `speedMultiplier` and `stepMode` user preferences unchanged. -/
theorem C7_stop_resets_preserving_preferences (app : AppState)
    (h : app.simulationState.isActive = true) :
    (stopSimulation app).simulationState.isActive = false ∧
    (stopSimulation app).simulationState.isPaused = false ∧
    (stopSimulation app).simulationState.progress = 0 ∧
    (stopSimulation app).simulationState.elapsedTime = 0 ∧
    (stopSimulation app).simulationState.distanceTraveled = 0 ∧
    (stopSimulation app).droneTrail.positions = [] ∧
    (stopSimulation app).simulationState.speedMultiplier =
      app.simulationState.speedMultiplier ∧
    (stopSimulation app).simulationState.stepMode = app.simulationState.stepMode ∧
    (stopSimulation app).animationLoopRunning = false ∧
    (stopSimulation app).telemetryRunning = false := by
  unfold stopSimulation stopAnimationLoop stopTelemetryUpdates
  simp

/-- Witness for C7 at a concrete running state. -/
theorem C7_stop_resets_preserving_preferences_witness :
    (stopSimulation sampleActiveApp).simulationState.isActive = false ∧
    (stopSimulation sampleActiveApp).simulationState.isPaused = false ∧
    (stopSimulation sampleActiveApp).simulationState.progress = 0 ∧
    (stopSimulation sampleActiveApp).simulationState.elapsedTime = 0 ∧
    (stopSimulation sampleActiveApp).simulationState.distanceTraveled = 0 ∧
    (stopSimulation sampleActiveApp).droneTrail.positions = [] ∧
    (stopSimulation sampleActiveApp).simulationState.speedMultiplier =
      sampleActiveApp.simulationState.speedMultiplier ∧
    (stopSimulation sampleActiveApp).simulationState.stepMode =
      sampleActiveApp.simulationState.stepMode ∧
    (stopSimulation sampleActiveApp).animationLoopRunning = false ∧
    (stopSimulation sampleActiveApp).telemetryRunning = false :=
  C7_stop_resets_preserving_preferences sampleActiveApp rfl

/-- C9: `setSimulationSpeed x` stores `clamp(x, 0.1, 10)` — written as the
source's `max 0.1 (min 10 x)` — and changes nothing else: no other
simulation-state field, no telemetry, no trail, no driver flags, and in
particular no state-machine transition (`isActive`/`isPaused` untouched). -/
theorem C9_set_speed_clamps (app : AppState) (x : ℝ) :
    (setSimulationSpeed app x).simulationState.speedMultiplier = max 0.1 (min 10 x) ∧
    (setSimulationSpeed app x).simulationState.isActive = app.simulationState.isActive ∧
    (setSimulationSpeed app x).simulationState.isPaused = app.simulationState.isPaused ∧
    (setSimulationSpeed app x).simulationState.currentWaypointIndex =
      app.simulationState.currentWaypointIndex ∧
    (setSimulationSpeed app x).simulationState.progress = app.simulationState.progress ∧
    (setSimulationSpeed app x).simulationState.startTime = app.simulationState.startTime ∧
    (setSimulationSpeed app x).simulationState.elapsedTime =
      app.simulationState.elapsedTime ∧
    (setSimulationSpeed app x).simulationState.totalDistance =
      app.simulationState.totalDistance ∧
    (setSimulationSpeed app x).simulationState.distanceTraveled =
      app.simulationState.distanceTraveled ∧
    (setSimulationSpeed app x).simulationState.estimatedTimeRemaining =
      app.simulationState.estimatedTimeRemaining ∧
    (setSimulationSpeed app x).simulationState.stepMode = app.simulationState.stepMode ∧
    (setSimulationSpeed app x).droneTelemetry = app.droneTelemetry ∧
    (setSimulationSpeed app x).droneTrail = app.droneTrail ∧
    (setSimulationSpeed app x).weatherEffect = app.weatherEffect ∧
    (setSimulationSpeed app x).missionWeather = app.missionWeather ∧
    (setSimulationSpeed app x).showTopBar = app.showTopBar ∧
    (setSimulationSpeed app x).animationLoopRunning = app.animationLoopRunning ∧
    (setSimulationSpeed app x).telemetryRunning = app.telemetryRunning := by
  unfold setSimulationSpeed
  simp

/-- C6 (amended): `startSimulation` on a path of fewer than 2 waypoints is
rejected synchronously by showing the browser alert "Please add at least 2
waypoints to start simulation" and returning the state untouched — so
`isActive` stays as it was (false outside a run) and neither driver is
started; no typed `InsufficientWaypointsError` value is produced (none
exists in the repository). -/
theorem C6_start_rejects_with_alert (waypoints : List Waypoint) (now : ℝ) (app : AppState)
    (h : waypoints.length < 2) :
    startSimulation waypoints now app =
      (app, StartOutcome.alertShown "Please add at least 2 waypoints to start simulation") := by
  unfold startSimulation
  rw [if_pos h]

/-- Witness for C6 (amended) at the empty path. -/
theorem C6_start_rejects_with_alert_witness :
    startSimulation [] 0 initialAppState =
      (initialAppState,
        StartOutcome.alertShown "Please add at least 2 waypoints to start simulation") :=
  C6_start_rejects_with_alert [] 0 initialAppState (by decide)

/-- C6 counterexample: at the concrete empty path the rejection surfaces as
a raw browser alert; it is not a typed `InsufficientWaypointsError`-style
failure value (the source never constructs `StartOutcome.typedFailure`). -/
theorem C6_counterexample :
    (startSimulation [] 0 initialAppState).2 =
        StartOutcome.alertShown "Please add at least 2 waypoints to start simulation" ∧
      ¬ ∃ e, (startSimulation [] 0 initialAppState).2 = StartOutcome.typedFailure e := by
  constructor
  · rfl
  · rintro ⟨e, he⟩
    rw [show (startSimulation [] 0 initialAppState).2 =
        StartOutcome.alertShown "Please add at least 2 waypoints to start simulation"
      from rfl] at he
    exact StartOutcome.noConfusion he

/-- C10: a successful `startSimulation` (path length at least 2) always
writes `stepMode := false`, discarding any step-mode preference set before
the run, even though `stopSimulation` leaves `stepMode` unchanged. -/
theorem C10_start_discards_step_mode (waypoints : List Waypoint) (now : ℝ) (app : AppState)
    (h : 2 ≤ waypoints.length) :
    (startSimulation waypoints now app).1.simulationState.stepMode = false ∧
    (startSimulation waypoints now app).2 = StartOutcome.started ∧
    (stopSimulation app).simulationState.stepMode = app.simulationState.stepMode := by
  refine ⟨?_, ?_, ?_⟩
  · unfold startSimulation
    rw [if_neg (by omega)]
    simp only [startDrivers_simulationState, updateWeatherEffects_simulationState,
      initializeDronePosition_simulationState]
  · unfold startSimulation
    rw [if_neg (by omega)]
  · unfold stopSimulation stopAnimationLoop stopTelemetryUpdates
    rfl

/-- Witness for C10 at a concrete two-waypoint path. -/
theorem C10_start_discards_step_mode_witness :
    (startSimulation [wpA, wpB] 0 initialAppState).1.simulationState.stepMode = false ∧
    (startSimulation [wpA, wpB] 0 initialAppState).2 = StartOutcome.started ∧
    (stopSimulation initialAppState).simulationState.stepMode =
      initialAppState.simulationState.stepMode :=
  C10_start_discards_step_mode [wpA, wpB] 0 initialAppState (by decide)

/-- C1 (code evaluation at the failing input): one active telemetry tick at
battery 100 and speed multiplier 1 stores battery `100 - 0.001` — the
per-second `BATTERY_DRAIN_RATE` applied once per 50 ms tick — which differs
from the claimed decrement
`BATTERY_DRAIN_RATE * speedMultiplier * (TELEMETRY_UPDATE_RATE / 1000)`. -/
theorem C1_battery_drain_skips_tick_interval :
    (telemetryTick sampleActiveApp).droneTelemetry.battery = 100 - 0.001 ∧
      (100 - 0.001 : ℝ) ≠
        100 - BATTERY_DRAIN_RATE * sampleActiveApp.simulationState.speedMultiplier *
          (TELEMETRY_UPDATE_RATE / 1000) := by
  constructor
  · unfold telemetryTick
    simp [sampleActiveApp, initialAppState, initialDroneTelemetry, initialSimulationState]
    norm_num
  · unfold BATTERY_DRAIN_RATE TELEMETRY_UPDATE_RATE
    simp [sampleActiveApp, initialAppState, initialSimulationState]
    norm_num

/-- C4: once `currentWaypointIndex` has reached the last waypoint of a path
of length at least 2, the next per-frame tick while running stops the
simulation (idle state, both drivers halted) and fires the mission-complete
alert; every later per-frame tick leaves the stopped state untouched and
fires nothing, so over any number of subsequent ticks the alert fires
exactly once. -/
theorem C4_mission_complete_once (waypoints : List Waypoint) (now : ℝ) (app : AppState)
    (hact : app.simulationState.isActive = true)
    (hpause : app.simulationState.isPaused = false)
    (hlen : 2 ≤ waypoints.length)
    (hidx : waypoints.length - 1 ≤ app.simulationState.currentWaypointIndex) :
    frameTick waypoints now app = some (stopSimulation app, true) ∧
    (stopSimulation app).simulationState.isActive = false ∧
    (stopSimulation app).animationLoopRunning = false ∧
    (stopSimulation app).telemetryRunning = false ∧
    (∀ k, frameTicks waypoints now k (stopSimulation app) = some (stopSimulation app, 0)) ∧
    (∀ k, frameTicks waypoints now (k + 1) app = some (stopSimulation app, 1)) := by
  have hstopInactive : (stopSimulation app).simulationState.isActive = false := rfl
  have h1 : frameTick waypoints now app = some (stopSimulation app, true) := by
    unfold frameTick updateDronePosition
    rw [hact, hpause]
    rw [if_neg (show ¬ waypoints.length < 2 by omega), if_pos hidx]
    simp
  have h5 := frameTicks_inactive waypoints now (stopSimulation app) hstopInactive
  refine ⟨h1, hstopInactive, rfl, rfl, h5, ?_⟩
  intro k
  simp [frameTicks, h1, h5 k]

/-! ## Haversine distance facts -/

/-- The haversine distance between coincident points is exactly 0. -/
theorem calculateDistance_self (p : LatLng) : calculateDistance p p = 0 := by
  unfold calculateDistance atan2
  simp [sub_self]

/-- The haversine distance from `wpA` (0°, 0°) to `wpB` (90°, 0°) is a
quarter of the Earth's circumference, `6371000 * (π / 2)` meters. -/
theorem calculateDistance_wpA_wpB :
    calculateDistance wpA.pos wpB.pos = 6371000 * (Real.pi / 2) := by
  have hhalf : Real.sin (Real.pi / 4) * Real.sin (Real.pi / 4) = 1 / 2 := by
    rw [Real.sin_pi_div_four, div_mul_div_comm,
      Real.mul_self_sqrt (by norm_num : (0 : ℝ) ≤ 2)]
    norm_num
  have hs : (0 : ℝ) < Real.sqrt (1 / 2) := Real.sqrt_pos.mpr (by norm_num)
  unfold calculateDistance
  simp only [wpA, wpB, Waypoint.pos]
  have e1 : ((90 : ℝ) - 0) * Real.pi / 180 / 2 = Real.pi / 4 := by ring
  have e2 : ((0 : ℝ) - 0) * Real.pi / 180 / 2 = 0 := by ring
  have e3 : (0 : ℝ) * Real.pi / 180 = 0 := by ring
  have e4 : (90 : ℝ) * Real.pi / 180 = Real.pi / 2 := by ring
  rw [e1, e2, e3, e4, Real.sin_zero, Real.cos_pi_div_two, hhalf]
  have ea : (1 / 2 : ℝ) + Real.cos 0 * 0 * (0 * 0) = 1 / 2 := by ring
  have eb : (1 : ℝ) - 1 / 2 = 1 / 2 := by norm_num
  rw [ea, eb]
  unfold atan2
  rw [if_pos hs, div_self (ne_of_gt hs), Real.arctan_one]
  ring

/-- That quarter-circumference is strictly positive. -/
theorem calculateDistance_wpA_wpB_pos : 0 < calculateDistance wpA.pos wpB.pos := by
  rw [calculateDistance_wpA_wpB]
  positivity

/-- One frame's distance step at 10 m/s is far shorter than the
`wpA`–`wpB` segment. -/
theorem distanceStep_lt_wpA_wpB :
    (10 : ℝ) * 1 * (16.67 / 1000) < calculateDistance wpA.pos wpB.pos := by
  rw [calculateDistance_wpA_wpB]
  nlinarith [Real.pi_gt_three]

/-! ## Reductions of the per-frame tick -/

/-- `toggleSimulationPause` flips `isPaused` and touches no other
simulation-state field. -/
theorem toggleSimulationPause_sim_fields (app : AppState) :
    (toggleSimulationPause app).simulationState =
      { app.simulationState with isPaused := !app.simulationState.isPaused } := by
  unfold toggleSimulationPause startTelemetryUpdates startAnimationLoop
    stopTelemetryUpdates stopAnimationLoop
  simp only []
  split
  · split <;> rfl
  · rfl

/-- The waypoint-reached branch increments the index and resets progress,
with or without the step-mode auto-pause. -/
theorem reachWaypoint_index_progress (app : AppState) :
    (reachWaypoint app).simulationState.currentWaypointIndex =
        app.simulationState.currentWaypointIndex + 1 ∧
      (reachWaypoint app).simulationState.progress = 0 := by
  unfold reachWaypoint
  simp only []
  constructor
  · split
    · rw [toggleSimulationPause_sim_fields]
    · rfl
  · split
    · rw [toggleSimulationPause_sim_fields]
    · rfl

/-- A running per-frame tick on a zero-length segment (coincident adjacent
waypoints) with a positive distance step takes the waypoint-reached branch:
in IEEE arithmetic `progressStep = distanceStep / 0 = +Infinity`, so
`progress >= 1` holds immediately. -/
theorem frameTick_reaches_of_coincident (waypoints : List Waypoint) (now : ℝ) (app : AppState)
    (hact : app.simulationState.isActive = true)
    (hpause : app.simulationState.isPaused = false)
    (hlen : 2 ≤ waypoints.length)
    (hidx : app.simulationState.currentWaypointIndex < waypoints.length - 1)
    (heqpos : (waypoints.getD app.simulationState.currentWaypointIndex default).pos =
      (waypoints.getD (app.simulationState.currentWaypointIndex + 1) default).pos)
    (hstep : 0 < (waypoints.getD (app.simulationState.currentWaypointIndex + 1) default).speed *
      app.simulationState.speedMultiplier * (16.67 / 1000)) :
    frameTick waypoints now app = some (reachWaypoint app, false) := by
  have hdist : calculateDistance
      (waypoints.getD app.simulationState.currentWaypointIndex default).pos
      (waypoints.getD (app.simulationState.currentWaypointIndex + 1) default).pos = 0 := by
    rw [heqpos, calculateDistance_self]
  unfold frameTick updateDronePosition
  rw [hact, hpause]
  rw [if_neg (show ¬((!true || false) = true) by simp)]
  rw [if_neg (show ¬ waypoints.length < 2 by omega),
    if_neg (show ¬ waypoints.length - 1 ≤ app.simulationState.currentWaypointIndex by omega)]
  simp only []
  rw [hdist]
  rw [if_pos (show (0 : ℝ) = 0 from rfl), if_pos hstep]

/-- A running per-frame tick that stays inside its segment (positive
segment distance, new progress below 1, nonzero commanded speed) takes the
interpolation branch; the stored telemetry and progress are as written on
map_app.ts lines 1538-1561. -/
theorem frameTick_interp_eval (waypoints : List Waypoint) (now : ℝ) (app : AppState)
    (hact : app.simulationState.isActive = true)
    (hpause : app.simulationState.isPaused = false)
    (hlen : 2 ≤ waypoints.length)
    (hidx : app.simulationState.currentWaypointIndex < waypoints.length - 1)
    (hseg : calculateDistance
      (waypoints.getD app.simulationState.currentWaypointIndex default).pos
      (waypoints.getD (app.simulationState.currentWaypointIndex + 1) default).pos ≠ 0)
    (hnc : app.simulationState.progress +
      (waypoints.getD (app.simulationState.currentWaypointIndex + 1) default).speed *
        app.simulationState.speedMultiplier * (16.67 / 1000) /
        calculateDistance
          (waypoints.getD app.simulationState.currentWaypointIndex default).pos
          (waypoints.getD (app.simulationState.currentWaypointIndex + 1) default).pos < 1)
    (hspd : (waypoints.getD (app.simulationState.currentWaypointIndex + 1) default).speed *
      app.simulationState.speedMultiplier ≠ 0) :
    ∃ a, frameTick waypoints now app = some (a, false) ∧
      a.simulationState.progress = app.simulationState.progress +
        (waypoints.getD (app.simulationState.currentWaypointIndex + 1) default).speed *
          app.simulationState.speedMultiplier * (16.67 / 1000) /
          calculateDistance
            (waypoints.getD app.simulationState.currentWaypointIndex default).pos
            (waypoints.getD (app.simulationState.currentWaypointIndex + 1) default).pos ∧
      a.droneTelemetry.distanceToWaypoint = calculateDistance
          (waypoints.getD app.simulationState.currentWaypointIndex default).pos
          (waypoints.getD (app.simulationState.currentWaypointIndex + 1) default).pos *
        (1 - a.simulationState.progress) ∧
      a.droneTelemetry.timeToWaypoint = a.droneTelemetry.distanceToWaypoint /
        ((waypoints.getD (app.simulationState.currentWaypointIndex + 1) default).speed *
          app.simulationState.speedMultiplier) ∧
      a.droneTelemetry.groundSpeed = calculateGroundSpeed app.weatherEffect
        ((waypoints.getD (app.simulationState.currentWaypointIndex + 1) default).speed *
          app.simulationState.speedMultiplier) := by
  unfold frameTick updateDronePosition
  rw [hact, hpause]
  rw [if_neg (show ¬((!true || false) = true) by simp)]
  rw [if_neg (show ¬ waypoints.length < 2 by omega),
    if_neg (show ¬ waypoints.length - 1 ≤ app.simulationState.currentWaypointIndex by omega)]
  simp only []
  rw [if_neg hseg, if_neg (not_le.mpr hnc), if_neg hspd]
  exact ⟨_, rfl, rfl, rfl, rfl, rfl⟩

/-- The progress after one frame on the `wpA`–`wpB` segment from progress 0
at 10 m/s and multiplier 1.0 stays below 1. -/
theorem c2_progress_lt_one :
    (0 : ℝ) + 10 * (1.0 : ℝ) * (16.67 / 1000) / calculateDistance wpA.pos wpB.pos < 1 := by
  have hD := calculateDistance_wpA_wpB_pos
  have hlt := distanceStep_lt_wpA_wpB
  have h1 : (10 : ℝ) * (1.0 : ℝ) * (16.67 / 1000) = 10 * 1 * (16.67 / 1000) := by norm_num
  rw [zero_add, h1, div_lt_one hD]
  exact hlt

/-- The ground speed stored for the `c2App` weather (wind vector (10, 0))
at commanded speed `10 * 1.0` is 9 m/s. -/
theorem c2_groundSpeed_eval :
    calculateGroundSpeed c2App.weatherEffect (10 * (1.0 : ℝ)) = 9 := by
  unfold calculateGroundSpeed
  show max 0 (10 * (1.0 : ℝ) - Real.sqrt ((10 : ℝ) ^ 2 + 0 ^ 2) * 0.1) = 9
  rw [show ((10 : ℝ) ^ 2 + 0 ^ 2) = 10 ^ 2 by norm_num,
    Real.sqrt_sq (by norm_num : (0 : ℝ) ≤ 10)]
  norm_num

/-- C3: on a running per-frame tick whose current segment has coincident
adjacent waypoints (equal latitude and longitude, hence haversine segment
distance exactly 0), with waypoint speed positive and speed multiplier in
[0.1, 10], the waypoint counts as reached immediately: the tick returns
normally (no error) with `currentWaypointIndex` incremented and `progress`
reset to the finite value 0 — no NaN reaches the stored state. -/
theorem C3_coincident_segment_reached_immediately
    (waypoints : List Waypoint) (now : ℝ) (app : AppState)
    (hact : app.simulationState.isActive = true)
    (hpause : app.simulationState.isPaused = false)
    (hlen : 2 ≤ waypoints.length)
    (hidx : app.simulationState.currentWaypointIndex < waypoints.length - 1)
    (hlat : (waypoints.getD app.simulationState.currentWaypointIndex default).lat =
      (waypoints.getD (app.simulationState.currentWaypointIndex + 1) default).lat)
    (hlng : (waypoints.getD app.simulationState.currentWaypointIndex default).lng =
      (waypoints.getD (app.simulationState.currentWaypointIndex + 1) default).lng)
    (hspeed : 0 < (waypoints.getD (app.simulationState.currentWaypointIndex + 1) default).speed)
    (hmultLo : 0.1 ≤ app.simulationState.speedMultiplier)
    (hmultHi : app.simulationState.speedMultiplier ≤ 10) :
    frameTick waypoints now app = some (reachWaypoint app, false) ∧
      (reachWaypoint app).simulationState.currentWaypointIndex =
        app.simulationState.currentWaypointIndex + 1 ∧
      (reachWaypoint app).simulationState.progress = 0 := by
  have hm : 0 < app.simulationState.speedMultiplier :=
    lt_of_lt_of_le (by norm_num) hmultLo
  have heqpos : (waypoints.getD app.simulationState.currentWaypointIndex default).pos =
      (waypoints.getD (app.simulationState.currentWaypointIndex + 1) default).pos := by
    unfold Waypoint.pos
    rw [hlat, hlng]
  have hstep : 0 <
      (waypoints.getD (app.simulationState.currentWaypointIndex + 1) default).speed *
        app.simulationState.speedMultiplier * (16.67 / 1000) :=
    mul_pos (mul_pos hspeed hm) (by norm_num)
  exact ⟨frameTick_reaches_of_coincident waypoints now app hact hpause hlen hidx heqpos hstep,
    (reachWaypoint_index_progress app).1, (reachWaypoint_index_progress app).2⟩

/-- Witness for C3: a path whose two waypoints coincide at `wpA`. -/
theorem C3_coincident_segment_reached_immediately_witness :
    frameTick [wpA, wpA] 0 sampleActiveApp = some (reachWaypoint sampleActiveApp, false) ∧
      (reachWaypoint sampleActiveApp).simulationState.currentWaypointIndex =
        sampleActiveApp.simulationState.currentWaypointIndex + 1 ∧
      (reachWaypoint sampleActiveApp).simulationState.progress = 0 :=
  C3_coincident_segment_reached_immediately [wpA, wpA] 0 sampleActiveApp rfl rfl
    (by decide) (by decide) rfl rfl
    (by show (0 : ℝ) < 10; norm_num)
    (by show (0.1 : ℝ) ≤ 1.0; norm_num)
    (by show (1.0 : ℝ) ≤ 10; norm_num)

/-- C8 counterexample: a concrete running tick on a zero-length segment of
a three-waypoint path (so not at the final waypoint), from progress 0.5
with a nonzero distance step, resets progress to 0 < 0.5 — progress after
the tick is smaller than before it, refuting the claim as stated. -/
theorem C8_counterexample :
    ¬ ∀ p ∈ frameTick [wpA, wpA, wpB] 0 c8App,
        c8App.simulationState.progress ≤ p.1.simulationState.progress := by
  intro hmono
  have heval : frameTick [wpA, wpA, wpB] 0 c8App = some (reachWaypoint c8App, false) :=
    frameTick_reaches_of_coincident [wpA, wpA, wpB] 0 c8App rfl rfl (by decide) (by decide)
      rfl (by show (0 : ℝ) < 10 * 1.0 * (16.67 / 1000); norm_num)
  have h := hmono (reachWaypoint c8App, false) heval
  rw [(reachWaypoint_index_progress c8App).2] at h
  norm_num [c8App, sampleActiveApp, initialSimulationState] at h

/-- C8 (amended): on a running per-frame tick that does not complete its
segment (positive segment distance and new progress below 1), with waypoint
speed positive and multiplier at least 0.1, the stored progress strictly
increases — hence is non-decreasing. The original claim fails only on
segment-completing ticks, where the code resets progress to 0 while
incrementing the index. -/
theorem C8_progress_monotone_within_segment
    (waypoints : List Waypoint) (now : ℝ) (app : AppState)
    (hact : app.simulationState.isActive = true)
    (hpause : app.simulationState.isPaused = false)
    (hlen : 2 ≤ waypoints.length)
    (hidx : app.simulationState.currentWaypointIndex < waypoints.length - 1)
    (hseg : 0 < calculateDistance
      (waypoints.getD app.simulationState.currentWaypointIndex default).pos
      (waypoints.getD (app.simulationState.currentWaypointIndex + 1) default).pos)
    (hspeed : 0 < (waypoints.getD (app.simulationState.currentWaypointIndex + 1) default).speed)
    (hmultLo : 0.1 ≤ app.simulationState.speedMultiplier)
    (hnc : app.simulationState.progress +
      (waypoints.getD (app.simulationState.currentWaypointIndex + 1) default).speed *
        app.simulationState.speedMultiplier * (16.67 / 1000) /
        calculateDistance
          (waypoints.getD app.simulationState.currentWaypointIndex default).pos
          (waypoints.getD (app.simulationState.currentWaypointIndex + 1) default).pos < 1) :
    ∃ a, frameTick waypoints now app = some (a, false) ∧
      app.simulationState.progress ≤ a.simulationState.progress ∧
      app.simulationState.progress < a.simulationState.progress := by
  have hm : 0 < app.simulationState.speedMultiplier :=
    lt_of_lt_of_le (by norm_num) hmultLo
  have hspd : (waypoints.getD (app.simulationState.currentWaypointIndex + 1) default).speed *
      app.simulationState.speedMultiplier ≠ 0 := ne_of_gt (mul_pos hspeed hm)
  obtain ⟨a, heq, hprog, -, -, -⟩ :=
    frameTick_interp_eval waypoints now app hact hpause hlen hidx (ne_of_gt hseg) hnc hspd
  have hlt : app.simulationState.progress < a.simulationState.progress := by
    rw [hprog]
    have hpos : 0 <
        (waypoints.getD (app.simulationState.currentWaypointIndex + 1) default).speed *
          app.simulationState.speedMultiplier * (16.67 / 1000) /
          calculateDistance
            (waypoints.getD app.simulationState.currentWaypointIndex default).pos
            (waypoints.getD (app.simulationState.currentWaypointIndex + 1) default).pos :=
      div_pos (mul_pos (mul_pos hspeed hm) (by norm_num)) hseg
    linarith
  exact ⟨a, heq, le_of_lt hlt, hlt⟩

/-- Witness for C8 (amended): one frame on the `wpA`–`wpB` segment. -/
theorem C8_progress_monotone_within_segment_witness :
    ∃ a, frameTick [wpA, wpB] 0 sampleActiveApp = some (a, false) ∧
      sampleActiveApp.simulationState.progress ≤ a.simulationState.progress ∧
      sampleActiveApp.simulationState.progress < a.simulationState.progress :=
  C8_progress_monotone_within_segment [wpA, wpB] 0 sampleActiveApp rfl rfl
    (by decide) (by decide) calculateDistance_wpA_wpB_pos
    (by show (0 : ℝ) < 10; norm_num)
    (by show (0.1 : ℝ) ≤ 1.0; norm_num)
    c2_progress_lt_one

/-- C2 counterexample: on a concrete running tick with wind vector (10, 0),
commanded speed 10 m/s and stored `groundSpeed` 9 m/s, the stored
`timeToWaypoint` is `distanceToWaypoint / 10`, not
`distanceToWaypoint / groundSpeed`. -/
theorem C2_counterexample :
    ¬ ∀ p ∈ frameTick [wpA, wpB] 0 c2App,
        p.1.droneTelemetry.timeToWaypoint =
          p.1.droneTelemetry.distanceToWaypoint / p.1.droneTelemetry.groundSpeed := by
  intro hclaim
  obtain ⟨a, heq, hprog, hdw, htw, hgs⟩ := frameTick_interp_eval [wpA, wpB] 0 c2App rfl rfl
    (by decide) (by decide) (ne_of_gt calculateDistance_wpA_wpB_pos) c2_progress_lt_one
    (by show (10 : ℝ) * 1.0 ≠ 0; norm_num)
  have h := hclaim (a, false) heq
  simp only at h
  have hplt : a.simulationState.progress < 1 := by
    rw [hprog]
    exact c2_progress_lt_one
  have hdwpos : 0 < a.droneTelemetry.distanceToWaypoint := by
    rw [hdw]
    exact mul_pos calculateDistance_wpA_wpB_pos (by linarith)
  have hsp : ([wpA, wpB].getD (c2App.simulationState.currentWaypointIndex + 1) default).speed *
      c2App.simulationState.speedMultiplier = 10 * (1.0 : ℝ) := rfl
  rw [htw, hgs, hsp, c2_groundSpeed_eval] at h
  rw [div_eq_div_iff (by norm_num) (by norm_num)] at h
  nlinarith [hdwpos]

/-- C2 (amended): on a running per-frame tick that interpolates within its
segment, the stored telemetry satisfies `distanceToWaypoint =
segmentDistance * (1 - progress)` and `timeToWaypoint = distanceToWaypoint
/ actualSpeed`, where `actualSpeed = nextWaypoint.speed * speedMultiplier`
is the commanded speed — not the stored `groundSpeed`. With waypoint speed
positive and multiplier at least 0.1, `actualSpeed` is positive, so the
quotient is an ordinary finite real: no NaN and no crash arise on this
path, and no groundSpeed ≈ 0 guard exists or is needed for it. -/
theorem C2_time_to_waypoint_uses_commanded_speed
    (waypoints : List Waypoint) (now : ℝ) (app : AppState)
    (hact : app.simulationState.isActive = true)
    (hpause : app.simulationState.isPaused = false)
    (hlen : 2 ≤ waypoints.length)
    (hidx : app.simulationState.currentWaypointIndex < waypoints.length - 1)
    (hseg : 0 < calculateDistance
      (waypoints.getD app.simulationState.currentWaypointIndex default).pos
      (waypoints.getD (app.simulationState.currentWaypointIndex + 1) default).pos)
    (hspeed : 0 < (waypoints.getD (app.simulationState.currentWaypointIndex + 1) default).speed)
    (hmultLo : 0.1 ≤ app.simulationState.speedMultiplier)
    (hnc : app.simulationState.progress +
      (waypoints.getD (app.simulationState.currentWaypointIndex + 1) default).speed *
        app.simulationState.speedMultiplier * (16.67 / 1000) /
        calculateDistance
          (waypoints.getD app.simulationState.currentWaypointIndex default).pos
          (waypoints.getD (app.simulationState.currentWaypointIndex + 1) default).pos < 1) :
    ∃ a, frameTick waypoints now app = some (a, false) ∧
      a.droneTelemetry.distanceToWaypoint = calculateDistance
          (waypoints.getD app.simulationState.currentWaypointIndex default).pos
          (waypoints.getD (app.simulationState.currentWaypointIndex + 1) default).pos *
        (1 - a.simulationState.progress) ∧
      a.droneTelemetry.timeToWaypoint = a.droneTelemetry.distanceToWaypoint /
        ((waypoints.getD (app.simulationState.currentWaypointIndex + 1) default).speed *
          app.simulationState.speedMultiplier) ∧
      0 < (waypoints.getD (app.simulationState.currentWaypointIndex + 1) default).speed *
        app.simulationState.speedMultiplier := by
  have hm : 0 < app.simulationState.speedMultiplier :=
    lt_of_lt_of_le (by norm_num) hmultLo
  have hprod : 0 <
      (waypoints.getD (app.simulationState.currentWaypointIndex + 1) default).speed *
        app.simulationState.speedMultiplier := mul_pos hspeed hm
  obtain ⟨a, heq, -, hdw, htw, -⟩ :=
    frameTick_interp_eval waypoints now app hact hpause hlen hidx (ne_of_gt hseg) hnc
      (ne_of_gt hprod)
  exact ⟨a, heq, hdw, htw, hprod⟩

/-- Witness for C2 (amended): one frame on the `wpA`–`wpB` segment with the
`c2App` wind. -/
theorem C2_time_to_waypoint_uses_commanded_speed_witness :
    ∃ a, frameTick [wpA, wpB] 0 c2App = some (a, false) ∧
      a.droneTelemetry.distanceToWaypoint = calculateDistance
          ([wpA, wpB].getD c2App.simulationState.currentWaypointIndex default).pos
          ([wpA, wpB].getD (c2App.simulationState.currentWaypointIndex + 1) default).pos *
        (1 - a.simulationState.progress) ∧
      a.droneTelemetry.timeToWaypoint = a.droneTelemetry.distanceToWaypoint /
        (([wpA, wpB].getD (c2App.simulationState.currentWaypointIndex + 1) default).speed *
          c2App.simulationState.speedMultiplier) ∧
      0 < ([wpA, wpB].getD (c2App.simulationState.currentWaypointIndex + 1) default).speed *
        c2App.simulationState.speedMultiplier :=
  C2_time_to_waypoint_uses_commanded_speed [wpA, wpB] 0 c2App rfl rfl
    (by decide) (by decide) calculateDistance_wpA_wpB_pos
    (by show (0 : ℝ) < 10; norm_num)
    (by show (0.1 : ℝ) ≤ 1.0; norm_num)
    c2_progress_lt_one

/-- Witness for C4: a two-waypoint path whose index already sits at the
final waypoint. -/
theorem C4_mission_complete_once_witness :
    frameTick [wpA, wpB] 0 c4App = some (stopSimulation c4App, true) ∧
    (stopSimulation c4App).simulationState.isActive = false ∧
    (stopSimulation c4App).animationLoopRunning = false ∧
    (stopSimulation c4App).telemetryRunning = false ∧
    (∀ k, frameTicks [wpA, wpB] 0 k (stopSimulation c4App) =
      some (stopSimulation c4App, 0)) ∧
    (∀ k, frameTicks [wpA, wpB] 0 (k + 1) c4App = some (stopSimulation c4App, 1)) :=
  C4_mission_complete_once [wpA, wpB] 0 c4App rfl rfl (by decide) (by decide)

end
